import Mathlib

/-!
Verification of the Galaxy Defender 2D game simulation (src/index.tsx).

The per-frame simulation loop, the damage handler, the shop, the boss state
machine and the spawn gates are embedded shallowly: JavaScript numbers become
rationals (all arithmetic in the relevant paths is exact decimal arithmetic),
frame counters become naturals, and calls to Math.random and Math.sin are
passed in as explicit oracle arguments, so every theorem quantifies over the
values those calls could return.
-/

namespace GalaxyDefender

/-- Game phase, from the GameState union type in src/index.tsx line 6. -/
inductive Phase where
  | START
  | PLAYING
  | GAMEOVER
  | SHOP
deriving DecidableEq, Repr

/-- The player fields read and written by takeDamage, from the player record
in gameData (src/index.tsx line 257): shield and invulnerability frame
countdowns. -/
structure Player where
  shield : ℕ
  invul : ℕ
deriving DecidableEq, Repr

/-- Result of one call to takeDamage: the player record, the health value,
the game phase and the screen-shake value after the call. -/
structure DamageResult where
  player : Player
  health : ℚ
  phase : Phase
  shake : ℚ
deriving DecidableEq, Repr

/-- The takeDamage handler, src/index.tsx lines 336-347. If a shield is
active it is consumed and 40 frames of invulnerability are granted, with no
health change. Otherwise health drops by amt; if the result is at or below
zero, health is set to 0 and the phase becomes GAMEOVER. In the no-shield
branch invulnerability is set to 80 and shake to 25. -/
def takeDamage (amt : ℚ) (p : Player) (health : ℚ) (ph : Phase) (shake : ℚ) :
    DamageResult :=
  if 0 < p.shield then
    { player := { p with shield := 0, invul := 40 }, health := health,
      phase := ph, shake := shake }
  else
    let next := health - amt
    if next ≤ 0 then
      { player := { p with invul := 80 }, health := 0,
        phase := Phase.GAMEOVER, shake := 25 }
    else
      { player := { p with invul := 80 }, health := next,
        phase := ph, shake := 25 }

/-- The HEAL power-up pickup, src/index.tsx line 430: health rises by 30 but
is clamped at the current maximum health. -/
def healPickup (maxHealth health : ℚ) : ℚ := min maxHealth (health + 30)

/-- The player x clamp, src/index.tsx line 389: x is clamped to the interval
from 0 to the canvas width minus the player width of 40. -/
def clampX (w x : ℚ) : ℚ := max 0 (min (w - 40) x)

/-- One frame of horizontal movement with the right key held, composed from
src/index.tsx lines 373, 387, 388 and 389: velocity gains the per-frame
acceleration a, is multiplied by the damping factor d, is added to x, and x
is then clamped to the playfield. The state pair is (x, vx). -/
def moveStep (a d w : ℚ) (s : ℚ × ℚ) : ℚ × ℚ :=
  let v := (s.2 + a) * d
  (clampX w (s.1 + v), v)

/-- The movement state after n frames of moveStep from the state s. -/
def moveRun (a d w : ℚ) (s : ℚ × ℚ) : ℕ → ℚ × ℚ
  | 0 => s
  | n + 1 => moveStep a d w (moveRun a d w s n)

/-- Projectile.update, src/index.tsx line 120: the position advances by the
velocity. The pair p is the position and v the velocity. -/
def bulletStep (v p : ℚ × ℚ) : ℚ × ℚ := (p.1 + v.1, p.2 + v.2)

/-- Position of a projectile spawned at (118, 500) with velocity (0, -15)
after n frames of Projectile.update. -/
def bulletIter (n : ℕ) : ℚ × ℚ := (bulletStep (0, -15))^[n] (118, 500)

/-- The player-bullet removal test, src/index.tsx line 400: a bullet is
spliced out of the bullets array when its y falls below -50 or its x leaves
the band from -50 to the canvas width plus 50. -/
def bulletGone (w : ℚ) (p : ℚ × ℚ) : Prop :=
  p.2 < -50 ∨ p.1 < -50 ∨ w + 50 < p.1

instance (w : ℚ) (p : ℚ × ℚ) : Decidable (bulletGone w p) := by
  unfold bulletGone; infer_instance

/-- The difficulty multiplier, src/index.tsx line 377: one plus a quarter per
wave plus the elapsed seconds over 240. -/
def diffMult (wave : ℕ) (elapsed : ℚ) : ℚ := 1 + wave * (1 / 4) + elapsed / 240

/-- The enemy spawn interval in milliseconds, src/index.tsx line 379: 1800
divided by the difficulty multiplier, floored at 250. -/
def spawnRate (d : ℚ) : ℚ := max 250 (1800 / d)

/-- Boss phases, from the state field of the Boss class, src/index.tsx
line 192. -/
inductive BossState where
  | ENTRY
  | SPIRAL
  | HOMING
  | CHARGE
  | DYING
deriving DecidableEq, Repr

/-- The Boss class fields that the update and collision code reads and
writes, src/index.tsx lines 188-201. The width and height fields are the
constants 220 and 140 and are inlined below. -/
structure Boss where
  x : ℚ
  y : ℚ
  angle : ℚ
  state : BossState
  stateTimer : ℕ
  deathTimer : ℕ
  hp : ℤ
  maxHp : ℤ
deriving DecidableEq, Repr

/-- The Boss constructor, src/index.tsx lines 196-201: centered horizontally
(x is half the canvas width minus 110), y at -200, full hit points, ENTRY
state with zeroed timers. -/
def bossSpawn (w : ℚ) (hp : ℤ) : Boss :=
  { x := w / 2 - 110, y := -200, angle := 0, state := BossState.ENTRY,
    stateTimer := 0, deathTimer := 0, hp := hp, maxHp := hp }

/-- Boss.update, src/index.tsx lines 203-232. The stateTimer is incremented
first, then the branch for the current state runs. The oracle arguments sA
and sT stand for the values of Math.sin at the angle and at the scaled
stateTimer, and r1 and r2 for the Math.random draws; all other arithmetic is
exact. Note that the ENTRY branch switches to SPIRAL without resetting the
stateTimer, while the other three transitions reset it to 0. -/
def bossUpdate (w h sA sT r1 r2 : ℚ) (b : Boss) : Boss :=
  let t := b.stateTimer + 1
  match b.state with
  | BossState.ENTRY =>
      if b.y < 120 then { b with stateTimer := t, y := b.y + 2 }
      else { b with stateTimer := t, state := BossState.SPIRAL }
  | BossState.SPIRAL =>
      let x1 := w / 2 - 110 + sA * 200
      let b1 := { b with stateTimer := t, angle := b.angle + 3 / 100, x := x1 }
      if 450 < t then { b1 with state := BossState.HOMING, stateTimer := 0 }
      else b1
  | BossState.HOMING =>
      let x1 := max 50 (min (w - 220 - 50) (b.x + (r1 - 1 / 2) * 20))
      let b1 := { b with stateTimer := t, y := 120 + sT * 60, x := x1 }
      if 350 < t then { b1 with state := BossState.CHARGE, stateTimer := 0 }
      else b1
  | BossState.CHARGE =>
      if t < 60 then { b with stateTimer := t, y := b.y - 2 }
      else
        let y1 := b.y + 22
        if h + 150 < y1 then
          { b with stateTimer := 0, y := -250, state := BossState.ENTRY }
        else { b with stateTimer := t, y := y1 }
  | BossState.DYING =>
      let x1 := b.x + (r2 - 1 / 2) * 8
      { b with stateTimer := t, deathTimer := b.deathTimer + 1, y := b.y + 2 / 5, x := x1 }

/-- The intended successor of each boss state in the attack cycle; DYING has
no successor. -/
def bossNext : BossState → BossState
  | BossState.ENTRY => BossState.SPIRAL
  | BossState.SPIRAL => BossState.HOMING
  | BossState.HOMING => BossState.CHARGE
  | BossState.CHARGE => BossState.ENTRY
  | BossState.DYING => BossState.DYING

/-- One player bullet hitting the boss, src/index.tsx lines 462-470: hit
points drop by the damage upgrade level, and when they reach 0 or below the
state becomes DYING. The surrounding frame code runs this only while the
state is not DYING. -/
def bossHit (dmg : ℤ) (b : Boss) : Boss :=
  let b1 := { b with hp := b.hp - dmg }
  if b1.hp ≤ 0 then { b1 with state := BossState.DYING } else b1

/-- The boss after n frames of Boss.update with fixed oracle values. -/
def bossRun (w h sA sT r1 r2 : ℚ) (b : Boss) : ℕ → Boss
  | 0 => b
  | n + 1 => bossUpdate w h sA sT r1 r2 (bossRun w h sA sT r1 r2 b n)

/-- The pieces of the per-frame state that the two spawn gates read and
write, from gameData (src/index.tsx lines 256-273) and the wave state. The
enemies field counts the enemies array length. -/
structure SpawnFrame where
  wave : ℕ
  enemiesDefeated : ℕ
  boss : Option Boss
  enemies : ℕ
  lastEnemySpawn : ℚ
  startTime : ℚ
deriving DecidableEq, Repr

/-- The two spawn gates of one simulation frame, src/index.tsx lines 368 and
376-385 and 435-444, in source order. The frame first destructures boss into
a local constant (line 368); the boss spawn gate (lines 381-385) creates a
boss with 150 plus 100 per wave hit points when the defeat count has reached
15 per wave and that local is null; the enemy spawn gate (lines 435-444)
spawns an enemy when the same stale local is null and the spawn interval has
elapsed. Because both gates test the local captured before the boss spawn,
an enemy can still spawn on the very frame the boss appears. -/
def frameSpawns (w time : ℚ) (s : SpawnFrame) : SpawnFrame :=
  let bossLocal := s.boss
  let elapsed := (time - s.startTime) / 1000
  let rate := spawnRate (diffMult s.wave elapsed)
  let s1 :=
    if s.wave * 15 ≤ s.enemiesDefeated ∧ bossLocal = none then
      { s with boss := some (bossSpawn w (150 + s.wave * 100)) }
    else s
  if bossLocal = none ∧ rate < time - s.lastEnemySpawn then
    { s1 with enemies := s1.enemies + 1, lastEnemySpawn := time }
  else s1

/-- The upgrade levels, src/index.tsx lines 10-15 and 249-254. -/
structure Upgrades where
  damage : ℕ
  fireRate : ℕ
  speed : ℕ
  maxHealth : ℕ
deriving DecidableEq, Repr

/-- The four purchasable upgrade keys. -/
inductive UpgradeKey where
  | damage
  | fireRate
  | speed
  | maxHealth
deriving DecidableEq, Repr

/-- The upgrade cost, src/index.tsx lines 628-633: level times 50 for
damage, fire rate and speed; the floor of maxHealth over 20 times 50 for max
health. Natural division of 50 times maxHealth by 20 is exactly that floor. -/
def upgradeCost (u : Upgrades) : UpgradeKey → ℕ
  | UpgradeKey.damage => u.damage * 50
  | UpgradeKey.fireRate => u.fireRate * 50
  | UpgradeKey.speed => u.speed * 50
  | UpgradeKey.maxHealth => u.maxHealth * 50 / 20

/-- The buyUpgrade handler, src/index.tsx lines 627-643: when the coin
balance covers the cost, the cost is deducted and the chosen upgrade rises
by 1, or by 20 for max health; otherwise nothing changes. -/
def buyUpgrade (k : UpgradeKey) (coins : ℕ) (u : Upgrades) : ℕ × Upgrades :=
  let cost := upgradeCost u k
  if cost ≤ coins then
    (coins - cost,
      match k with
      | UpgradeKey.damage => { u with damage := u.damage + 1 }
      | UpgradeKey.fireRate => { u with fireRate := u.fireRate + 1 }
      | UpgradeKey.speed => { u with speed := u.speed + 1 }
      | UpgradeKey.maxHealth => { u with maxHealth := u.maxHealth + 20 })
  else (coins, u)

/-- The high score read at startup, src/index.tsx line 243: the stored value
under the neonHigh key, or 0 when absent. -/
def initialHighScore (stored : Option ℕ) : ℕ := stored.getD 0

/-- The stored high score after a run ends with the given final score. The
GAMEOVER transition is the setGameState call inside takeDamage
(src/index.tsx lines 336-347), and no code path in src/index.tsx calls
localStorage.setItem or setHighScore, so the stored value is returned
unchanged whatever the final score was. -/
def storedHighAfterRun (stored _finalScore : ℕ) : ℕ := stored

/-! Theorems. -/

/-- Claim C1: the high score is read once at startup from the neonHigh key,
and a run ending above the stored value persists the new score. The read
half holds, but the write half fails: src/index.tsx never calls
localStorage.setItem and never calls setHighScore, so a run ending at 700
with 500 stored leaves 500 in place, contradicting the claim. -/
theorem highscore_never_written :
    initialHighScore (some 500) = 500
    ∧ storedHighAfterRun 500 700 = 500
    ∧ storedHighAfterRun 500 300 = 500
    ∧ storedHighAfterRun 500 700 ≠ 700 := by
  decide

/-- Claim C4: takeDamage with an active shield absorbs the hit: health is
unchanged, the shield is zeroed and invulnerability is set to 40; with no
shield, health drops by the damage amount, and a result at or below zero
sets health to 0 and moves the phase to GAMEOVER. -/
theorem takeDamage_shield_and_health (amt : ℚ) (p : Player) (health : ℚ)
    (ph : Phase) (sk : ℚ) :
    (0 < p.shield →
      (takeDamage amt p health ph sk).health = health
      ∧ (takeDamage amt p health ph sk).player.shield = 0
      ∧ (takeDamage amt p health ph sk).player.invul = 40
      ∧ (takeDamage amt p health ph sk).phase = ph)
    ∧ (p.shield = 0 →
      (health - amt ≤ 0 →
        (takeDamage amt p health ph sk).health = 0
        ∧ (takeDamage amt p health ph sk).phase = Phase.GAMEOVER)
      ∧ (0 < health - amt →
        (takeDamage amt p health ph sk).health = health - amt
        ∧ (takeDamage amt p health ph sk).phase = ph)) := by
  constructor
  · intro hs
    simp [takeDamage, hs]
  · intro hs
    constructor
    · intro hfatal
      simp [takeDamage, hs, hfatal]
    · intro halive
      have : ¬ (health - amt ≤ 0) := not_le.mpr halive
      simp [takeDamage, hs, this]

/-- Witness for C4 at a concrete input: a player with 600 shield frames hit
for 15 damage keeps 70 health, loses the shield and gains 40 invulnerability
frames. -/
theorem takeDamage_shield_and_health_witness :
    0 < (Player.mk 600 0).shield
    ∧ (takeDamage 15 (Player.mk 600 0) 70 Phase.PLAYING 0).health = 70
    ∧ (takeDamage 15 (Player.mk 600 0) 70 Phase.PLAYING 0).player.shield = 0
    ∧ (takeDamage 15 (Player.mk 600 0) 70 Phase.PLAYING 0).player.invul = 40 := by
  have h := (takeDamage_shield_and_health 15 (Player.mk 600 0) 70
    Phase.PLAYING 0).1 (by decide)
  exact ⟨by decide, h.1, h.2.1, h.2.2.1⟩

/-- Claim C5: after the clamping step the player x lies between 0 and the
canvas width minus the player width of 40, for any canvas at least as wide
as the player. -/
theorem clampX_bounds (w x : ℚ) (hw : 40 ≤ w) :
    0 ≤ clampX w x ∧ clampX w x ≤ w - 40 := by
  unfold clampX
  refine ⟨le_max_left _ _, max_le (by linarith) (min_le_left _ _)⟩

/-- Witness for C5: the clamp applied at width 1000 to the out-of-range
position 12345 lands inside the interval. -/
theorem clampX_bounds_witness :
    (40 : ℚ) ≤ 1000
    ∧ 0 ≤ clampX 1000 12345 ∧ clampX 1000 12345 ≤ 1000 - 40 := by
  have h := clampX_bounds 1000 12345 (by norm_num)
  exact ⟨by norm_num, h.1, h.2⟩

/-- Claim C9: health stays within 0 and the current maximum: takeDamage
never leaves health negative and fatal damage sets it to exactly 0, and the
HEAL pickup adds 30 clamped at the maximum, never exceeding it. -/
theorem health_stays_in_range (p : Player) (ph : Phase) (sk m health amt : ℚ)
    (h0 : 0 ≤ health) (hm : health ≤ m) (ha : 0 ≤ amt) :
    (0 ≤ (takeDamage amt p health ph sk).health
      ∧ (takeDamage amt p health ph sk).health ≤ m)
    ∧ (0 ≤ healPickup m health ∧ healPickup m health ≤ m) := by
  refine ⟨?_, le_min (by linarith) (by linarith), min_le_left _ _⟩
  simp only [takeDamage]
  split_ifs with h1 h2 <;> dsimp only
  · exact ⟨h0, hm⟩
  · exact ⟨le_refl 0, by linarith⟩
  · exact ⟨by linarith, by linarith⟩

/-- Witness for C9: from 90 health out of a maximum of 100, a 15 damage hit
stays in range and a heal stays in range. -/
theorem health_stays_in_range_witness :
    ((0:ℚ) ≤ 90 ∧ (90:ℚ) ≤ 100 ∧ (0:ℚ) ≤ 15)
    ∧ (0 ≤ (takeDamage 15 (Player.mk 0 0) 90 Phase.PLAYING 0).health
       ∧ (takeDamage 15 (Player.mk 0 0) 90 Phase.PLAYING 0).health ≤ 100)
    ∧ (0 ≤ healPickup 100 90 ∧ healPickup 100 90 ≤ 100) := by
  have h := health_stays_in_range (Player.mk 0 0) Phase.PLAYING 0 100 90 15
    (by norm_num) (by norm_num) (by norm_num)
  exact ⟨⟨by norm_num, by norm_num, by norm_num⟩, h.1, h.2⟩

/-- Claim C10: buying an upgrade is guarded and atomic. The max health cost
is the floor of maxHealth over 20 times 50 (maxHealth is always a multiple
of 20 in reachable states, starting at 100 and rising by 20); the other
costs are level times 50. With too few coins nothing changes; with enough
coins exactly the cost is deducted, never leaving a negative balance, and
only the purchased upgrade rises, by 1, or by 20 for max health. -/
theorem buyUpgrade_guarded_atomic (k : UpgradeKey) (coins : ℕ) (u : Upgrades)
    (hd : 20 ∣ u.maxHealth) :
    upgradeCost u UpgradeKey.maxHealth = u.maxHealth / 20 * 50
    ∧ (coins < upgradeCost u k → buyUpgrade k coins u = (coins, u))
    ∧ (upgradeCost u k ≤ coins →
      (buyUpgrade k coins u).1 + upgradeCost u k = coins
      ∧ (buyUpgrade k coins u).2.damage
          = u.damage + (if k = UpgradeKey.damage then 1 else 0)
      ∧ (buyUpgrade k coins u).2.fireRate
          = u.fireRate + (if k = UpgradeKey.fireRate then 1 else 0)
      ∧ (buyUpgrade k coins u).2.speed
          = u.speed + (if k = UpgradeKey.speed then 1 else 0)
      ∧ (buyUpgrade k coins u).2.maxHealth
          = u.maxHealth + (if k = UpgradeKey.maxHealth then 20 else 0)) := by
  refine ⟨?_, ?_, ?_⟩
  · obtain ⟨c, hc⟩ := hd
    simp only [upgradeCost, hc]
    omega
  · intro hlt
    have : ¬ upgradeCost u k ≤ coins := by omega
    simp [buyUpgrade, this]
  · intro hle
    unfold buyUpgrade
    simp only [if_pos hle]
    refine ⟨by omega, ?_⟩
    cases k <;> simp

/-- Witness for C10: with 100 coins and all upgrades at their initial
levels, buying weapon damage costs 50, leaves 50 coins and raises only the
damage level. -/
theorem buyUpgrade_guarded_atomic_witness :
    (20 ∣ (Upgrades.mk 1 1 1 100).maxHealth)
    ∧ upgradeCost (Upgrades.mk 1 1 1 100) UpgradeKey.maxHealth = 100 / 20 * 50
    ∧ (buyUpgrade UpgradeKey.damage 100 (Upgrades.mk 1 1 1 100)).1
        + upgradeCost (Upgrades.mk 1 1 1 100) UpgradeKey.damage = 100
    ∧ (buyUpgrade UpgradeKey.damage 100 (Upgrades.mk 1 1 1 100)).2.damage = 1 + 1
    ∧ (buyUpgrade UpgradeKey.damage 100 (Upgrades.mk 1 1 1 100)).2.maxHealth
        = 100 + 0 := by
  have h := buyUpgrade_guarded_atomic UpgradeKey.damage 100
    (Upgrades.mk 1 1 1 100) (by decide)
  have h2 := h.2.2 (by decide)
  refine ⟨by decide, h.1, h2.1, ?_, ?_⟩
  · have := h2.2.1
    simpa using this
  · have := h2.2.2.2.2
    simpa using this

/-- Helper for C8: the difficulty multiplier is positive whenever elapsed
time is nonnegative. -/
theorem diffMult_pos (wave : ℕ) (e : ℚ) (he : 0 ≤ e) : 0 < diffMult wave e := by
  unfold diffMult
  have hw : (0:ℚ) ≤ wave := Nat.cast_nonneg wave
  nlinarith

/-- Claim C8: the spawn interval is non-increasing in the difficulty
multiplier, the difficulty multiplier is monotone in wave and elapsed time
and positive, and the interval never falls below the 250 ms floor. -/
theorem spawnRate_monotone_floor (w1 w2 : ℕ) (e1 e2 d d1 d2 : ℚ)
    (hw : w1 ≤ w2) (he0 : 0 ≤ e1) (he : e1 ≤ e2) (hd1 : 0 < d1) (hdd : d1 ≤ d2) :
    diffMult w1 e1 ≤ diffMult w2 e2
    ∧ 0 < diffMult w1 e1
    ∧ spawnRate d2 ≤ spawnRate d1
    ∧ 250 ≤ spawnRate d := by
  refine ⟨?_, diffMult_pos w1 e1 he0, ?_, le_max_left _ _⟩
  · unfold diffMult
    have hcast : (w1 : ℚ) ≤ (w2 : ℚ) := Nat.cast_le.mpr hw
    nlinarith
  · unfold spawnRate
    have hdiv : 1800 / d2 ≤ 1800 / d1 := by
      apply div_le_div_of_nonneg_left (by norm_num) hd1 hdd
    exact max_le_max (le_refl 250) hdiv

/-- Witness for C8 at concrete values: wave 1 after 10 seconds versus wave 2
after 20 seconds, and difficulty multipliers 1 and 2. -/
theorem spawnRate_monotone_floor_witness :
    diffMult 1 10 ≤ diffMult 2 20
    ∧ 0 < diffMult 1 10
    ∧ spawnRate 2 ≤ spawnRate 1
    ∧ 250 ≤ spawnRate 3 := by
  exact spawnRate_monotone_floor 1 2 10 20 3 1 2 (by norm_num) (by norm_num)
    (by norm_num) (by norm_num) (by norm_num)

/-- Helper for C7: closed form of the scenario projectile after n frames. -/
theorem bulletIter_closed (n : ℕ) :
    bulletIter n = ((118 : ℚ), (500 : ℚ) - 15 * (n : ℚ)) := by
  induction n with
  | zero => simp [bulletIter]
  | succ k ih =>
    unfold bulletIter at ih ⊢
    rw [Function.iterate_succ_apply', ih]
    unfold bulletStep
    simp only [Prod.mk.injEq, Prod.fst, Prod.snd]
    refine ⟨by norm_num, ?_⟩
    push_cast
    ring

/-- Claim C7: a projectile spawned at (118, 500) with velocity (0, -15)
advances by its velocity each frame, and the splice condition of the bullet
loop first holds on frame 37, the first frame its y is below -50; this holds
on any canvas at least 68 wide, so that the x bounds never trigger. -/
theorem bullet_removed_at_frame_37 (w : ℚ) (hw : 68 ≤ w) (n : ℕ) :
    bulletIter n = ((118 : ℚ), (500 : ℚ) - 15 * (n : ℚ))
    ∧ (bulletGone w (bulletIter n) ↔ 37 ≤ n) := by
  refine ⟨bulletIter_closed n, ?_⟩
  rw [bulletIter_closed n]
  unfold bulletGone
  constructor
  · rintro (hy | hx | hx)
    · by_contra hlt
      push_neg at hlt
      have hn : (n : ℚ) ≤ 36 := by exact_mod_cast Nat.le_of_lt_succ hlt
      simp only at hy
      nlinarith
    · simp at hx
      norm_num at hx
    · simp only at hx
      linarith
  · intro h37
    left
    have hn : (37 : ℚ) ≤ (n : ℚ) := by exact_mod_cast h37
    simp only
    nlinarith

/-- Witness for C7: on a canvas 1000 wide the projectile is still present
after 36 frames and gone after 37. -/
theorem bullet_removed_at_frame_37_witness :
    (68 : ℚ) ≤ 1000
    ∧ ¬ bulletGone 1000 (bulletIter 36)
    ∧ bulletGone 1000 (bulletIter 37) := by
  have h36 := bullet_removed_at_frame_37 1000 (by norm_num) 36
  have h37 := bullet_removed_at_frame_37 1000 (by norm_num) 37
  refine ⟨by norm_num, ?_, h37.2.mpr (by norm_num)⟩
  intro hg
  have := h36.2.mp hg
  omega

/-- Helper for C6: in the scenario run (accel 9/5, damping 43/50, width
1000, start x 100 with zero velocity) the velocity stays in the interval
from 0 up to but excluding 387/35, the fixed point of the step map, and the
position stays between 0 and 960. Proved for every frame by induction. -/
theorem moveScenario_invariant (n : ℕ) :
    0 ≤ (moveRun (9/5) (43/50) 1000 (100, 0) n).2
    ∧ (moveRun (9/5) (43/50) 1000 (100, 0) n).2 < 387/35
    ∧ 0 ≤ (moveRun (9/5) (43/50) 1000 (100, 0) n).1
    ∧ (moveRun (9/5) (43/50) 1000 (100, 0) n).1 ≤ 960 := by
  induction n with
  | zero =>
    simp only [moveRun]
    norm_num
  | succ k ih =>
    obtain ⟨hv0, hvL, hx0, hxW⟩ := ih
    simp only [moveRun, moveStep, clampX]
    refine ⟨by nlinarith, by nlinarith, le_max_left _ _, ?_⟩
    refine max_le (by norm_num) (le_trans (min_le_left _ _) (by norm_num))

/-- Claim C6: holding right from x 100 for 30 frames at accel 1.8 and
damping 0.86 on a width 1000 playfield, the position never decreases and
never exceeds 960, and the absolute distance of the velocity from the value
accel over one minus damping, 90/7, shrinks strictly every frame: the
velocity climbs toward its terminal value from below. -/
theorem player_drift_scenario (i : ℕ) (_hi : i < 30) :
    (moveRun (9/5) (43/50) 1000 (100, 0) i).1
      ≤ (moveRun (9/5) (43/50) 1000 (100, 0) (i+1)).1
    ∧ |(moveRun (9/5) (43/50) 1000 (100, 0) (i+1)).2 - 90/7|
      < |(moveRun (9/5) (43/50) 1000 (100, 0) i).2 - 90/7|
    ∧ (moveRun (9/5) (43/50) 1000 (100, 0) (i+1)).1 ≤ 1000 - 40 := by
  obtain ⟨hv0, hvL, hx0, hxW⟩ := moveScenario_invariant i
  obtain ⟨hv0s, hvLs, hx0s, hxWs⟩ := moveScenario_invariant (i + 1)
  have hstep : moveRun (9/5) (43/50) 1000 (100, 0) (i+1)
      = moveStep (9/5) (43/50) 1000 (moveRun (9/5) (43/50) 1000 (100, 0) i) :=
    rfl
  refine ⟨?_, ?_, by linarith⟩
  · rw [hstep]
    simp only [moveStep, clampX]
    have h1 : (moveRun (9/5) (43/50) 1000 (100, 0) i).1
        ≤ min ((1000 : ℚ) - 40)
          ((moveRun (9/5) (43/50) 1000 (100, 0) i).1
            + ((moveRun (9/5) (43/50) 1000 (100, 0) i).2 + 9/5) * (43/50)) :=
      le_min (by linarith) (by nlinarith)
    exact le_trans h1 (le_max_right _ _)
  · have hvstep : (moveRun (9/5) (43/50) 1000 (100, 0) (i+1)).2
        = ((moveRun (9/5) (43/50) 1000 (100, 0) i).2 + 9/5) * (43/50) := by
      rw [hstep]
      simp only [moveStep]
    rw [abs_of_neg (by nlinarith), abs_of_neg (by nlinarith)]
    rw [hvstep]
    nlinarith

/-- Witness for C6 at frame 0: position does not decrease, the velocity gap
to 90/7 shrinks, and the new position stays at most 960. -/
theorem player_drift_scenario_witness :
    (0 : ℕ) < 30
    ∧ ((moveRun (9/5) (43/50) 1000 (100, 0) 0).1
        ≤ (moveRun (9/5) (43/50) 1000 (100, 0) 1).1
      ∧ |(moveRun (9/5) (43/50) 1000 (100, 0) 1).2 - 90/7|
        < |(moveRun (9/5) (43/50) 1000 (100, 0) 0).2 - 90/7|
      ∧ (moveRun (9/5) (43/50) 1000 (100, 0) 1).1 ≤ 1000 - 40) :=
  ⟨by norm_num, player_drift_scenario 0 (by norm_num)⟩

/-- Claim C2, amended: every Boss.update step either keeps the state or
moves it to the next state of the cycle ENTRY, SPIRAL, HOMING, CHARGE and
back to ENTRY; DYING is terminal under update. The stateTimer is reset to 0
on the SPIRAL, HOMING and CHARGE transitions, but the ENTRY to SPIRAL
transition keeps the incremented timer. A bullet hit that brings hit points
to 0 or below turns any state the hit is evaluated in, ENTRY included, into
DYING, and otherwise leaves the state alone. -/
theorem boss_cycle (w h sA sT r1 r2 : ℚ) (b : Boss) :
    ((bossUpdate w h sA sT r1 r2 b).state = b.state
      ∨ (bossUpdate w h sA sT r1 r2 b).state = bossNext b.state)
    ∧ (b.state = BossState.DYING →
        (bossUpdate w h sA sT r1 r2 b).state = BossState.DYING)
    ∧ ((b.state = BossState.SPIRAL ∨ b.state = BossState.HOMING
          ∨ b.state = BossState.CHARGE) →
        (bossUpdate w h sA sT r1 r2 b).state ≠ b.state →
        (bossUpdate w h sA sT r1 r2 b).stateTimer = 0)
    ∧ (b.state = BossState.ENTRY → ¬ b.y < 120 →
        (bossUpdate w h sA sT r1 r2 b).state = BossState.SPIRAL
        ∧ (bossUpdate w h sA sT r1 r2 b).stateTimer = b.stateTimer + 1)
    ∧ (∀ dmg : ℤ,
        (b.hp - dmg ≤ 0 → (bossHit dmg b).state = BossState.DYING)
        ∧ (0 < b.hp - dmg → (bossHit dmg b).state = b.state)) := by
  obtain ⟨x, y, ang, st, t, dt, hp, mhp⟩ := b
  refine ⟨?_, ?_, ?_, ?_, ?_⟩
  · cases st <;> simp only [bossUpdate, bossNext] <;> (try split_ifs) <;> simp
  · intro hst
    subst hst
    simp [bossUpdate]
  · intro hcyc hchange
    rcases hcyc with hst | hst | hst <;> subst hst <;>
      revert hchange <;> simp only [bossUpdate] <;> split_ifs <;> simp
  · intro hst hy
    subst hst
    simp [bossUpdate, hy]
  · intro dmg
    constructor
    · intro hdead
      simp only [Boss.hp] at hdead
      simp [bossHit, hdead]
    · intro halive
      have : ¬ (hp - dmg ≤ 0) := by
        simp only [Boss.hp] at halive
        omega
      simp [bossHit, this]

/-- Witness for C2 at concrete inputs: a DYING boss stays DYING under
update, and a boss in ENTRY at y 120 moves to SPIRAL keeping its timer. -/
theorem boss_cycle_witness :
    ((Boss.mk 0 0 0 BossState.DYING 7 0 50 50).state = BossState.DYING
      ∧ (bossUpdate 1000 800 0 0 0 0
          (Boss.mk 0 0 0 BossState.DYING 7 0 50 50)).state = BossState.DYING)
    ∧ ((bossUpdate 1000 800 0 0 0 0
          (Boss.mk 0 120 0 BossState.ENTRY 160 0 50 50)).state = BossState.SPIRAL
      ∧ (bossUpdate 1000 800 0 0 0 0
          (Boss.mk 0 120 0 BossState.ENTRY 160 0 50 50)).stateTimer = 160 + 1) := by
  constructor
  · exact ⟨rfl, (boss_cycle 1000 800 0 0 0 0
      (Boss.mk 0 0 0 BossState.DYING 7 0 50 50)).2.1 rfl⟩
  · exact (boss_cycle 1000 800 0 0 0 0
      (Boss.mk 0 120 0 BossState.ENTRY 160 0 50 50)).2.2.2.1 rfl (by norm_num)

/-- Helper for the C2 counterexample: during entry the scenario boss
descends 2 per frame with the timer counting up and the state fixed at
ENTRY; after k frames, for k up to 160, y is minus 200 plus 2k. -/
theorem bossRun_entry (w h sA sT r1 r2 : ℚ) (k : ℕ) (hk : k ≤ 160) :
    (bossRun w h sA sT r1 r2 (bossSpawn w 250) k).state = BossState.ENTRY
    ∧ (bossRun w h sA sT r1 r2 (bossSpawn w 250) k).stateTimer = k
    ∧ (bossRun w h sA sT r1 r2 (bossSpawn w 250) k).y = -200 + 2 * (k : ℚ) := by
  induction k with
  | zero =>
    refine ⟨rfl, rfl, ?_⟩
    show (-200 : ℚ) = -200 + 2 * (0 : ℕ)
    norm_num
  | succ j ih =>
    obtain ⟨hst, ht, hy⟩ := ih (by omega)
    have hjq : ((j : ℚ)) ≤ 159 := by
      exact_mod_cast Nat.le_of_lt_succ (by omega)
    have hylt : (bossRun w h sA sT r1 r2 (bossSpawn w 250) j).y < 120 := by
      rw [hy]; linarith
    have hrun : bossRun w h sA sT r1 r2 (bossSpawn w 250) (j + 1)
        = bossUpdate w h sA sT r1 r2 (bossRun w h sA sT r1 r2 (bossSpawn w 250) j) :=
      rfl
    rw [hrun]
    rw [show bossUpdate w h sA sT r1 r2 (bossRun w h sA sT r1 r2 (bossSpawn w 250) j)
          = { bossRun w h sA sT r1 r2 (bossSpawn w 250) j with
              stateTimer := (bossRun w h sA sT r1 r2 (bossSpawn w 250) j).stateTimer + 1,
              y := (bossRun w h sA sT r1 r2 (bossSpawn w 250) j).y + 2 } from ?_]
    · refine ⟨hst, by simp [ht], ?_⟩
      simp only
      rw [hy]
      push_cast
      ring
    · simp only [bossUpdate, hst, hylt, if_pos]

/-- Claim C2 counterexample: starting from a fresh boss on a 1000 by 800
canvas, frame 161 is the ENTRY to SPIRAL transition and it leaves the
stateTimer at 161 rather than resetting it, refuting the claim that timers
reset on each transition; moreover a lethal bullet hit evaluated while the
state is ENTRY moves the boss to DYING, refuting the claim that DYING is
reached only from non-ENTRY states. -/
theorem boss_cycle_counterexample :
    (bossRun 1000 800 0 0 0 0 (bossSpawn 1000 250) 161).state = BossState.SPIRAL
    ∧ (bossRun 1000 800 0 0 0 0 (bossSpawn 1000 250) 161).stateTimer = 161
    ∧ (bossSpawn 1000 250).state = BossState.ENTRY
    ∧ ({ bossSpawn 1000 250 with y := 0, hp := 1 } : Boss).state = BossState.ENTRY
    ∧ (bossHit 1 { bossSpawn 1000 250 with y := 0, hp := 1 }).state
        = BossState.DYING := by
  obtain ⟨hst, ht, hy⟩ := bossRun_entry 1000 800 0 0 0 0 160 (le_refl 160)
  have hy120 : ¬ (bossRun 1000 800 0 0 0 0 (bossSpawn 1000 250) 160).y < 120 := by
    rw [hy]; norm_num
  have hrun : bossRun 1000 800 0 0 0 0 (bossSpawn 1000 250) 161
      = bossUpdate 1000 800 0 0 0 0 (bossRun 1000 800 0 0 0 0 (bossSpawn 1000 250) 160) :=
    rfl
  refine ⟨?_, ?_, rfl, rfl, ?_⟩
  · rw [hrun]
    simp [bossUpdate, hst, hy120]
  · rw [hrun]
    simp [bossUpdate, hst, hy120, ht]
  · simp [bossHit, bossSpawn]

/-- Claim C3, amended: when the defeat count has reached 15 per wave and the
frame begins with no boss, that frame spawns a boss with 150 plus 100 per
wave hit points; an existing boss is never replaced, so at most one boss
exists; and a frame that begins with a boss present spawns no normal enemy.
On the single frame in which the boss spawns, however, a normal enemy can
still spawn, because the enemy gate tests the boss reference captured before
the boss was created. -/
theorem boss_spawn_gate (w time : ℚ) (s : SpawnFrame) :
    (s.boss = none → s.wave * 15 ≤ s.enemiesDefeated →
      (frameSpawns w time s).boss = some (bossSpawn w (150 + s.wave * 100)))
    ∧ (∀ b, s.boss = some b → (frameSpawns w time s).boss = some b)
    ∧ (s.boss ≠ none → (frameSpawns w time s).enemies = s.enemies) := by
  refine ⟨?_, ?_, ?_⟩
  · intro hb hcount
    simp only [frameSpawns, hb]
    split_ifs with h1 h2 <;> simp_all
  · intro b hb
    simp only [frameSpawns, hb]
    split_ifs with h1 h2 <;> simp_all
  · intro hb
    simp only [frameSpawns]
    split_ifs with h1 h2 <;> simp_all

/-- Witness for C3: a wave 1 frame with 15 defeats and no boss spawns a 250
hit point boss, and a frame that begins with a live boss adds no enemy. -/
theorem boss_spawn_gate_witness :
    ((SpawnFrame.mk 1 15 none 0 0 0).boss = none
      ∧ (SpawnFrame.mk 1 15 none 0 0 0).wave * 15
          ≤ (SpawnFrame.mk 1 15 none 0 0 0).enemiesDefeated
      ∧ (frameSpawns 1000 10000 (SpawnFrame.mk 1 15 none 0 0 0)).boss
          = some (bossSpawn 1000 (150 + 1 * 100)))
    ∧ ((frameSpawns 1000 10000
          (SpawnFrame.mk 1 0 (some (bossSpawn 1000 250)) 4 0 0)).enemies = 4) := by
  constructor
  · refine ⟨rfl, by decide, ?_⟩
    have h := (boss_spawn_gate 1000 10000 (SpawnFrame.mk 1 15 none 0 0 0)).1
      rfl (by decide)
    simpa using h
  · have h := (boss_spawn_gate 1000 10000
      (SpawnFrame.mk 1 0 (some (bossSpawn 1000 250)) 4 0 0)).2.2 (by simp)
    simpa using h

/-- Claim C3 counterexample: on the very frame the boss spawns, the enemy
gate still sees the boss reference captured at the start of the frame, so a
normal enemy spawns in the same frame even though the boss now exists: at
wave 1 with 15 defeats, time 10000 and last enemy spawn at 0, the frame ends
with a boss present and the enemy count raised from 0 to 1. -/
theorem boss_spawn_gate_counterexample :
    (frameSpawns 1000 10000 (SpawnFrame.mk 1 15 none 0 0 0)).boss
      = some (bossSpawn 1000 250)
    ∧ (frameSpawns 1000 10000 (SpawnFrame.mk 1 15 none 0 0 0)).enemies = 1 := by
  have hrate : spawnRate (diffMult 1 ((10000 - (SpawnFrame.mk 1 15 none 0 0 0).startTime) / 1000))
      < 10000 - (SpawnFrame.mk 1 15 none 0 0 0).lastEnemySpawn := by
    show spawnRate (diffMult 1 ((10000 - 0) / 1000)) < 10000 - 0
    have hd : diffMult 1 ((10000 - (0:ℚ)) / 1000) = 31 / 24 := by
      unfold diffMult
      norm_num
    rw [hd]
    unfold spawnRate
    rw [max_def]
    split_ifs <;> norm_num
  simp only [frameSpawns]
  split_ifs with h1 h2 <;> simp_all

end GalaxyDefender
